import Mathlib

/-!
# Verification of the Trackify analytics engine (`server/services/analytics/analytics.py`)

Shallow embedding of the analytics computations of the Trackify repository.
Numbers that the Python code holds as IEEE doubles are modelled as rationals
(`ℚ`); timestamps are modelled as integer seconds; a pandas `NaN` cell is
modelled as `Option.none`; IEEE infinities, where the code can actually
produce them, are modelled by the explicit extended type `XFloat`.

Every definition is translated from the Python source; comments on each
definition point to the function it embeds.
-/

namespace Trackify

/-- Python's `round(x, n)` (banker's rounding, ties to even), modelled on `ℚ`.
`round` in Python rounds the float nearest to `x * 10^n` with ties to even;
on our rational model we round the exact scaled value with ties to even.
None of the verified claims evaluates `round` at a tie. -/
def pyRound (n : ℕ) (q : ℚ) : ℚ :=
  let y : ℚ := q * (10 : ℚ) ^ n
  let f : ℤ := ⌊y⌋
  let r : ℚ := y - f
  let k : ℤ :=
    if r < 1/2 then f
    else if r > 1/2 then f + 1
    else if f % 2 = 0 then f else f + 1
  (k : ℚ) / (10 : ℚ) ^ n

/-- Sum of a list of rationals (`numpy`/`pandas` sum). -/
def qsum (l : List ℚ) : ℚ := l.foldr (· + ·) 0

/-- Arithmetic mean (`Series.mean`). Empty input never occurs at the call
sites (each is guarded by a minimum-length check in the source). -/
def qmean (l : List ℚ) : ℚ := qsum l / l.length

/-- Sample variance with `ddof = 1`, i.e. the square of `Series.std()`
(pandas default). The source only ever uses the standard deviation inside
comparisons of nonnegative quantities, so the variance (its square) carries
the same information; theorems relate it back to `Real.sqrt`. -/
def sampleVar (l : List ℚ) : ℚ :=
  qsum (l.map (fun x => (x - qmean l) ^ 2)) / (l.length - 1)

/-- Minimum of a nonempty list (`Series.min`); `0` junk on `[]` (never hit:
all call sites are guarded). -/
def qmin : List ℚ → ℚ
  | [] => 0
  | x :: xs => xs.foldl min x

/-- Maximum of a nonempty list (`Series.max`). -/
def qmax : List ℚ → ℚ
  | [] => 0
  | x :: xs => xs.foldl max x

/-- Positional indices `0, 1, …, n-1` as rationals: the regression abscissa
`x = np.arange(len(values))` used throughout the source. -/
def arangeQ (n : ℕ) : List ℚ := (List.range n).map (fun i => (i : ℚ))

/-- Ordinary-least-squares slope of `ys` against positional indices
`0,1,…` — the closed form of `LinearRegression().fit(x, values).coef_[0]`
from the source (x is always `np.arange(len(values))`). -/
def olsSlope (ys : List ℚ) : ℚ :=
  let n : ℚ := ys.length
  let xs := arangeQ ys.length
  let sx := qsum xs
  let sy := qsum ys
  let sxy := qsum ((xs.zip ys).map (fun p => p.1 * p.2))
  let sxx := qsum (xs.map (fun x => x ^ 2))
  (n * sxy - sx * sy) / (n * sxx - sx ^ 2)

/-- OLS intercept for the same fit (`model.intercept_`). -/
def olsIntercept (ys : List ℚ) : ℚ :=
  qmean ys - olsSlope ys * qmean (arangeQ ys.length)

/-- Value of the fitted line at abscissa `x` (`model.predict([[x]])`). -/
def olsPredict (ys : List ℚ) (x : ℚ) : ℚ :=
  olsIntercept ys + olsSlope ys * x

/-- Coefficient of determination `model.score(x, ys)` for the index-based
fit: `1 - ss_res / ss_tot`, with scikit-learn's convention for a constant
target (`ss_tot = 0`): score `1.0` when the residuals also vanish, else
`0.0`. -/
def r2Score (ys : List ℚ) : ℚ :=
  let preds := (arangeQ ys.length).map (olsPredict ys)
  let ssRes := qsum ((ys.zip preds).map (fun p => (p.1 - p.2) ^ 2))
  let ssTot := qsum (ys.map (fun y => (y - qmean ys) ^ 2))
  if ssTot = 0 then (if ssRes = 0 then 1 else 0) else 1 - ssRes / ssTot

/-! ## Goal feasibility (`check_goal_progress`, analytics.py lines 226-283) -/

/-- Feasibility classification of `check_goal_progress` (lines 260-266):
starts at `"realistic"`, then the strict-comparison ladder
`abs(rate) > 1.0 → "aggressive"`, `elif abs(rate) > 0.5 → "challenging"`,
`elif abs(rate) < 0.2 → "conservative"`. -/
def assessFeasibility (requiredWeeklyRate : ℚ) : String :=
  if |requiredWeeklyRate| > 1 then "aggressive"
  else if |requiredWeeklyRate| > 1/2 then "challenging"
  else if |requiredWeeklyRate| < 1/5 then "conservative"
  else "realistic"

/-- `days_remaining = (target_dt - current_date).days` (line 241): Python's
`timedelta.days` floors the difference towards minus infinity, here on
timestamps in seconds. `target_dt` is a date parsed at midnight;
`current_date` is the latest measurement's full timestamp. -/
def daysRemaining (targetSec currentSec : ℤ) : ℤ :=
  Int.fdiv (targetSec - currentSec) 86400

/-- Goal-progress core of `check_goal_progress` (lines 241-276): `none`
models the `{"error": "Target date must be in the future"}` return taken
when `days_remaining <= 0`; otherwise the weekly rate and the feasibility
label are computed. Fields mirror the returned dict (trend and
recommendation text omitted; no claim concerns them). -/
structure GoalResult where
  weight_to_change : ℚ
  days_remaining : ℤ
  weeks_remaining : ℚ
  required_weekly_rate : ℚ
  feasibility : String
  deriving Repr, DecidableEq

def checkGoalProgress (currentWeight targetWeight : ℚ)
    (targetSec currentSec : ℤ) : Option GoalResult :=
  let days := daysRemaining targetSec currentSec
  let weightToLose := currentWeight - targetWeight
  if days ≤ 0 then none
  else
    let weeks : ℚ := (days : ℚ) / 7
    let rate : ℚ := if weeks > 0 then weightToLose / weeks else 0
    some {
      weight_to_change := pyRound 2 weightToLose
      days_remaining := days
      weeks_remaining := pyRound 1 weeks
      required_weekly_rate := pyRound 2 rate
      feasibility := assessFeasibility rate
    }

/-! ## Windowed trend (`_calculate_trend`, analytics.py lines 370-409) -/

/-- Result dict of `_calculate_trend`; `trend` is the direction string. -/
structure TrendResult where
  trend : String
  slope : ℚ
  change : ℚ
  percent_change : ℚ
  data_points : ℕ
  deriving Repr, DecidableEq

/-- The in-window non-null values of `_calculate_trend` (lines 372-378):
`recent_df = df[df.date >= df.date.max() - timedelta(days)]`, then
`values = recent_df[metric].dropna()`. A row is a pair
(timestamp in seconds, nullable metric value); the frame is date-sorted by
the callers, which does not affect max/filter. -/
def windowValues (rows : List (ℤ × Option ℚ)) (days : ℤ) : List ℚ :=
  let maxDate := (rows.map Prod.fst).foldr max 0
  let cutoff := maxDate - days * 86400
  (rows.filter (fun r => cutoff ≤ r.1)).filterMap Prod.snd

/-- Trend direction (lines 388-395): the source tests
`abs(slope) < values.std() * 0.1`; both sides are nonnegative, so we test
the equivalent square comparison `slope² < var/100` to stay in `ℚ`
(`(0.1·std)² = var/100`); the claim theorem proves the equivalence with
the `Real.sqrt` form. Note `slope = 0` with zero variance falls through
both branches to `"decreasing"`, exactly as in the source. -/
def trendDirection (slope : ℚ) (values : List ℚ) : String :=
  if slope ^ 2 < sampleVar values / 100 then "stable"
  else if slope > 0 then "increasing"
  else "decreasing"

/-- `_calculate_trend` (lines 370-409): `none` models the
`{"trend": "insufficient_data"}` result (fewer than 2 rows in the window or
fewer than 2 non-null values). Percent change (line 400):
`(end - start)/start*100 if start != 0 else 0`. `period_days` is echoed
input and omitted here. -/
def calculateTrend (rows : List (ℤ × Option ℚ)) (days : ℤ) : Option TrendResult :=
  if (rows.filter (fun r =>
      (rows.map Prod.fst).foldr max 0 - days * 86400 ≤ r.1)).length < 2 then none
  else
  let values := windowValues rows days
  if values.length < 2 then none
  else
    let slope := olsSlope values
    let startValue := values.head!
    let endValue := values.getLast!
    let pctChange : ℚ :=
      if startValue ≠ 0 then (endValue - startValue) / startValue * 100 else 0
    some {
      trend := trendDirection slope values
      slope := pyRound 4 slope
      change := pyRound 2 (endValue - startValue)
      percent_change := pyRound 2 pctChange
      data_points := values.length
    }

/-! ## Full-series metric analysis (`_analyze_metric_trend`, lines 411-442) -/

/-- Result of `_analyze_metric_trend`. `std` and `volatility` are standard
deviations in the source; to keep the embedding in `ℚ` the squares
(sample variances) are stored, which determine them. -/
structure MetricAnalysis where
  current : ℚ
  start : ℚ
  min : ℚ
  max : ℚ
  mean : ℚ
  stdSq : ℚ
  total_change : ℚ
  total_change_percent : ℚ
  trend_slope : ℚ
  r_squared : ℚ
  volatilitySq : ℚ
  largest_daily_change : ℚ
  deriving Repr, DecidableEq

/-- Consecutive differences `values.diff().dropna()`. -/
def seriesDiff (l : List ℚ) : List ℚ :=
  (l.zip l.tail).map (fun p => p.2 - p.1)

/-- `_analyze_metric_trend` (lines 411-442) on the metric's column
(`values = df[metric].dropna()` is the `filterMap id`). `none` models the
`{"error": "Insufficient data"}` result. `total_change_percent` (427-428):
`((last - first)/first)*100` guarded by `first != 0 → else 0`. -/
def analyzeMetricTrend (col : List (Option ℚ)) : Option MetricAnalysis :=
  let values := col.filterMap id
  if values.length < 2 then none
  else
    let first := values.head!
    let last := values.getLast!
    let dailyChanges := seriesDiff values
    some {
      current := pyRound 2 last
      start := pyRound 2 first
      min := pyRound 2 (qmin values)
      max := pyRound 2 (qmax values)
      mean := pyRound 2 (qmean values)
      stdSq := sampleVar values
      total_change := pyRound 2 (last - first)
      total_change_percent :=
        if first ≠ 0 then pyRound 2 ((last - first) / first * 100) else 0
      trend_slope := pyRound 4 (olsSlope values)
      r_squared := pyRound 3 (r2Score values)
      volatilitySq := sampleVar dailyChanges
      largest_daily_change := pyRound 2 (qmax (dailyChanges.map abs))
    }

/-- Per-metric change of `_calculate_period_changes` (lines 627-647):
`change = end - start`, `pct = change/start*100 if start != 0 else 0`,
both rounded to 2 places. -/
def periodChange (startVal endVal : ℚ) : ℚ × ℚ :=
  let change := endVal - startVal
  let pct : ℚ := if startVal ≠ 0 then change / startVal * 100 else 0
  (pyRound 2 change, pyRound 2 pct)

/-! ## Measurement rows -/

/-- A measurement record as the analytics engine consumes it: a timestamp
(seconds) plus the nullable numeric columns the verified claims touch.
`none` models a pandas `NaN` cell. -/
structure Row where
  date : ℤ
  weight_kg : Option ℚ := none
  bmi : Option ℚ := none
  body_fat_percent : Option ℚ := none
  muscle_mass_kg : Option ℚ := none
  body_water_percent : Option ℚ := none
  deriving Repr, DecidableEq, Inhabited

/-- NaN-propagating subtraction: `last - first` on two cells that may be
NaN (any NaN operand makes the float result NaN → `none`). -/
def subOpt (a b : Option ℚ) : Option ℚ :=
  match a, b with
  | some x, some y => some (x - y)
  | _, _ => none

/-- A float comparison `v < c` where `v` may be NaN: NaN compares false. -/
def oLt (a : Option ℚ) (c : ℚ) : Bool :=
  match a with
  | some x => decide (x < c)
  | none => false

/-- A float comparison `v > c` where `v` may be NaN: NaN compares false. -/
def oGt (a : Option ℚ) (c : ℚ) : Bool :=
  match a with
  | some x => decide (x > c)
  | none => false

/-! ## Achievements (`_identify_achievements`, lines 515-562) -/

/-- One achievement entry; the f-string description is reproduced only by
its numeric content (`value`), which determines it. -/
structure Achievement where
  type : String
  value : Option ℚ
  category : String
  deriving Repr, DecidableEq

/-- `_identify_achievements` (lines 515-562): compares
`df[col].iloc[-1] - df[col].iloc[0]` per column against strict fixed
thresholds; requires `len(df) >= 2` else `[]`. The weight branch is an
`if/elif`: loss is tested before gain. All columns of `Row` always exist
(the engine's frames carry the full schema), matching `in df.columns`. -/
def identifyAchievements (df : List Row) : List Achievement :=
  if df.length < 2 then []
  else
    let first := df.head!
    let last := df.getLast!
    let weightChange := subOpt last.weight_kg first.weight_kg
    let fatChange := subOpt last.body_fat_percent first.body_fat_percent
    let muscleChange := subOpt last.muscle_mass_kg first.muscle_mass_kg
    (if oLt weightChange (-5) then
      [{ type := "weight_loss", value := weightChange.map abs,
         category := if oGt (weightChange.map abs) 10 then "major" else "significant" }]
     else if oGt weightChange 2 then
      [{ type := "weight_gain", value := weightChange, category := "muscle_building" }]
     else []) ++
    (if oLt fatChange (-2) then
      [{ type := "fat_loss", value := fatChange.map abs,
         category := if oGt (fatChange.map abs) 5 then "major" else "significant" }]
     else []) ++
    (if oGt muscleChange 1 then
      [{ type := "muscle_gain", value := muscleChange, category := "muscle_building" }]
     else [])

/-! ## Health insights (`_generate_health_insights`, lines 564-605) -/

/-- Insight strings for the latest row (lines 571-604). The BMI ladder ends
in a bare `else` (obese), so a NaN BMI — whose comparisons are all false —
also lands there; the body-fat and water ladders have no `else`, so NaN
adds nothing. -/
def insightsOfLatest (latest : Row) : List String :=
  (match latest.bmi with
   | some bmi =>
     if bmi < 37/2 then
       ["Your BMI indicates you're underweight. Consider consulting a nutritionist."]
     else if bmi < 25 then
       ["Your BMI is in the healthy range. Great job maintaining a healthy weight!"]
     else if bmi < 30 then
       ["Your BMI indicates you're overweight. Focus on creating a caloric deficit."]
     else
       ["Your BMI indicates obesity. Consider consulting a healthcare professional."]
   | none =>
       ["Your BMI indicates obesity. Consider consulting a healthcare professional."]) ++
  (match latest.body_fat_percent with
   | some bodyFat =>
     if bodyFat < 10 then
       ["Your body fat is very low. Ensure you're maintaining adequate nutrition."]
     else if 10 ≤ bodyFat ∧ bodyFat ≤ 15 then
       ["Excellent body fat percentage! You're in athletic range."]
     else if 16 ≤ bodyFat ∧ bodyFat ≤ 20 then
       ["Good body fat percentage. You're in the fitness range."]
     else if bodyFat > 25 then
       ["Consider focusing on fat loss through diet and cardio exercise."]
     else []
   | none => []) ++
  (match latest.body_water_percent with
   | some waterPct =>
     if waterPct < 50 then
       ["Your body water percentage seems low. Ensure adequate hydration."]
     else if waterPct > 65 then
       ["Your body water percentage is high, which is generally positive."]
     else []
   | none => [])

/-- `_generate_health_insights` (lines 564-605): returns `[]` when
`len(df) < 2`, otherwise the insight strings of `df.iloc[-1]`. -/
def generateHealthInsights (df : List Row) : List String :=
  if df.length < 2 then []
  else insightsOfLatest df.getLast!

/-! ## Prediction (`_predict_metric` lines 484-513,
`get_progress_predictions` lines 190-224) -/

/-- Result dict of `_predict_metric`. -/
structure Prediction where
  current_value : ℚ
  predicted_value : ℚ
  change : ℚ
  confidence : ℚ
  trend : String
  deriving Repr, DecidableEq

/-- `_predict_metric` (lines 484-513): `values = df[metric].dropna()`;
`None` below 5 non-null points; otherwise an OLS fit on the last 30 (or
fewer) values against positional indices, extrapolated to index
`len(recent) + days_ahead - 1` (the last entry of `future_x`). -/
def predictMetric (col : List (Option ℚ)) (daysAhead : ℕ) : Option Prediction :=
  let values := col.filterMap id
  if values.length < 5 then none
  else
    let recent := values.drop (values.length - 30)
    let currentValue := values.getLast!
    let predictedValue :=
      olsPredict recent ((recent.length : ℚ) + (daysAhead : ℚ) - 1)
    some {
      current_value := pyRound 2 currentValue
      predicted_value := pyRound 2 predictedValue
      change := pyRound 2 (predictedValue - currentValue)
      confidence := pyRound 3 (r2Score recent)
      trend :=
        if predictedValue > currentValue then "increasing"
        else if predictedValue < currentValue then "decreasing"
        else "stable"
    }

/-- The metric list `metrics_to_predict` of `get_progress_predictions`
(line 206). -/
def metricsToPredict : List String :=
  ["weight_kg", "body_fat_percent", "muscle_mass_kg", "bmi"]

/-- Number of non-null points: `df[metric].notna().sum()`. -/
def nonNullCount (col : List (Option ℚ)) : ℕ := (col.filterMap id).length

/-- Prediction loop of `get_progress_predictions` (lines 208-214) over the
frame's columns (metric name ↦ nullable column; a metric absent from
`cols` models `metric not in df.columns`): a metric enters the result iff
it is in `metrics_to_predict`, its column exists, `notna().sum() > 5`, and
`_predict_metric` returned a value. -/
def progressPredictions (cols : List (String × List (Option ℚ)))
    (daysAhead : ℕ) : List (String × Prediction) :=
  metricsToPredict.filterMap (fun m =>
    match (cols.find? (fun c => c.1 = m)).map Prod.snd with
    | none => none
    | some col =>
        if nonNullCount col > 5 then
          (predictMetric col daysAhead).map (fun p => (m, p))
        else none)

/-! ## Correlations (`get_metric_correlations`, lines 137-188)

pandas `DataFrame.corr()` computes, for each pair of columns, the Pearson
coefficient over the rows where both cells are non-null:
`r = Σ(x-x̄)(y-ȳ) / (sqrt(Σ(x-x̄)²) · sqrt(Σ(y-ȳ)²))`, and `NaN` when either
centred sum of squares is zero (constant or too-short column). The
embedding keeps the square-root-free data — the centred cross sum `num`
and the product of the two centred sums of squares `denSq` — from which
`r = num / Real.sqrt denSq`; `none` models the `NaN` entry. -/

/-- Rows where both cells are non-null (pandas pairwise-complete
observations). -/
def pairedObs (xs ys : List (Option ℚ)) : List (ℚ × ℚ) :=
  (xs.zip ys).filterMap (fun p =>
    match p.1, p.2 with
    | some a, some b => some (a, b)
    | _, _ => none)

/-- Centred cross sum `Σ(x-x̄)(y-ȳ)` over a paired sample. -/
def covSum (ps : List (ℚ × ℚ)) : ℚ :=
  let xbar := qmean (ps.map Prod.fst)
  let ybar := qmean (ps.map Prod.snd)
  qsum (ps.map (fun p => (p.1 - xbar) * (p.2 - ybar)))

/-- Centred sum of squares `Σ(x-x̄)²` of one coordinate. -/
def ssSum (l : List ℚ) : ℚ :=
  qsum (l.map (fun x => (x - qmean l) ^ 2))

/-- One entry of `correlation_df.corr()` (line 162) in square-root-free
form: `some (num, denSq)` denotes the real value `num / √denSq`; `none` is
the `NaN` pandas produces when a column is constant on the paired rows. -/
def corrEntry (xs ys : List (Option ℚ)) : Option (ℚ × ℚ) :=
  let ps := pairedObs xs ys
  let dx := ssSum (ps.map Prod.fst)
  let dy := ssSum (ps.map Prod.snd)
  if dx * dy = 0 then none
  else some (covSum ps, dx * dy)

/-- The real value denoted by a `corrEntry` representation. -/
noncomputable def corrValue (e : ℚ × ℚ) : ℝ :=
  (e.1 : ℝ) / Real.sqrt (e.2 : ℝ)

/-- One strong-correlation record (lines 173-179). `correlationRep` keeps
the unrounded square-root-free representation of `r`. -/
structure StrongCorrelation where
  metric1 : String
  metric2 : String
  correlationRep : ℚ × ℚ
  strength : String
  direction : String
  deriving Repr, DecidableEq

/-- Loop body of the strong-correlation extraction (lines 172-179), for
one pair of columns: kept iff `abs(r) > 0.7`, strength `"strong"` iff
`abs(r) > 0.8`, direction `"positive"` iff `r > 0`. With `r = num/√denSq`
and `denSq > 0` these are the square-free tests `num² > 0.49·denSq`,
`num² > 0.64·denSq`, `num > 0` (proved equivalent in the claim theorem); a
`NaN` entry fails `abs(NaN) > 0.7` and is skipped, as in the source. -/
def strongPairEntry (m1 : String) (xs : List (Option ℚ)) (m2 : String)
    (ys : List (Option ℚ)) : Option StrongCorrelation :=
  match corrEntry xs ys with
  | some e =>
    if e.1 ^ 2 > 49/100 * e.2 then
      some {
        metric1 := m1
        metric2 := m2
        correlationRep := e
        strength := if e.1 ^ 2 > 64/100 * e.2 then "strong" else "moderate"
        direction := if e.1 > 0 then "positive" else "negative"
      }
    else none
  | none => none

/-- The strong-correlation extraction of `get_metric_correlations`
(lines 165-179) over the available columns, pairs `i < j` in column
order. -/
def strongCorrelations (cols : List (String × List (Option ℚ))) :
    List StrongCorrelation :=
  (List.range cols.length).flatMap (fun i =>
    (List.range cols.length).filterMap (fun j =>
      if i < j then
        match cols.get? i, cols.get? j with
        | some (m1, xs), some (m2, ys) => strongPairEntry m1 xs m2 ys
        | _, _ => none
      else none))

/-! ## Metrics summary (`get_metrics_summary`, lines 23-86) -/

/-- Date-sorting of the frame, `df = df.sort_values('date')` (line 36). -/
def sortByDate (data : List Row) : List Row :=
  data.mergeSort (fun a b => a.date ≤ b.date)

/-- The `overview.latest_measurement` field of `get_metrics_summary`
(line 53): taken from `data[0]` of the snapshot AS RETURNED by the data
processor, before any sorting. -/
def latestMeasurementField (data : List Row) : Option ℤ :=
  data.head?.map Row.date

/-- The `current_stats.current` value for a metric column of the sorted
frame, `df[metric].iloc[-1]` (line 65), on the weight column. Outer `none`:
empty frame; inner `none`: a NaN cell. -/
def currentStatWeight (data : List Row) : Option (Option ℚ) :=
  ((sortByDate data).map Row.weight_kg).getLast?

/-! ## Change velocity (`_calculate_change_velocity`, lines 462-482)

The per-step division `changes / time_diffs` is a float division that
pandas does not guard: a zero day gap produces `±inf` (or `NaN` for
`0/0`). `XFloat` models exactly the needed fragment of IEEE arithmetic. -/

/-- An IEEE double as the velocity analyzer can produce it: finite, an
infinity, or NaN. -/
inductive XFloat where
  | fin (q : ℚ)
  | inf
  | ninf
  | nan
  deriving Repr, DecidableEq

/-- IEEE division of a finite numerator by a finite denominator:
`x/0 = ±inf` by the sign of `x`, `0/0 = NaN`. -/
def xdiv (num : ℚ) (den : ℚ) : XFloat :=
  if den ≠ 0 then .fin (num / den)
  else if num > 0 then .inf
  else if num < 0 then .ninf
  else .nan

/-- IEEE addition on the modelled fragment (`inf + (-inf) = NaN`). -/
def xadd : XFloat → XFloat → XFloat
  | .nan, _ => .nan
  | _, .nan => .nan
  | .inf, .ninf => .nan
  | .ninf, .inf => .nan
  | .inf, _ => .inf
  | _, .inf => .inf
  | .ninf, _ => .ninf
  | _, .ninf => .ninf
  | .fin a, .fin b => .fin (a + b)

/-- Sum of a list of extended floats. -/
def xsum (l : List XFloat) : XFloat := l.foldr xadd (.fin 0)

/-- Division by a positive finite count (used by `mean`). -/
def xdivByNat (x : XFloat) (n : ℕ) : XFloat :=
  match x with
  | .fin q => .fin (q / n)
  | y => y

/-- `Series.mean()` on a NaN-free list (the source calls it after
`dropna()`): NaN on empty input. -/
def xmean (l : List XFloat) : XFloat :=
  if l.isEmpty then .nan else xdivByNat (xsum l) l.length

/-- IEEE `max` of two non-NaN extended floats. -/
def xmax2 : XFloat → XFloat → XFloat
  | .inf, _ => .inf
  | _, .inf => .inf
  | .ninf, y => y
  | x, .ninf => x
  | .fin a, .fin b => .fin (max a b)
  | _, _ => .nan

/-- IEEE `min` of two non-NaN extended floats. -/
def xmin2 : XFloat → XFloat → XFloat
  | .ninf, _ => .ninf
  | _, .ninf => .ninf
  | .inf, y => y
  | x, .inf => x
  | .fin a, .fin b => .fin (min a b)
  | _, _ => .nan

/-- `Series.max()` on a NaN-free list: NaN on empty input. -/
def xmaxList : List XFloat → XFloat
  | [] => .nan
  | x :: xs => xs.foldl xmax2 x

/-- `Series.min()` on a NaN-free list: NaN on empty input. -/
def xminList : List XFloat → XFloat
  | [] => .nan
  | x :: xs => xs.foldl xmin2 x

/-- `round(x, n)` on an extended float: infinities and NaN are unchanged
(Python `round(inf, 4) = inf`, `round(nan, 4) = nan`). -/
def xround (n : ℕ) : XFloat → XFloat
  | .fin q => .fin (pyRound n q)
  | y => y

/-- Whether an extended float is a finite number. -/
def XFloat.isFinite : XFloat → Bool
  | .fin _ => true
  | _ => false

/-- Result dict of `_calculate_change_velocity` (acceleration omitted; no
claim concerns it). -/
structure VelocityResult where
  avg_daily_change : XFloat
  max_daily_change : XFloat
  min_daily_change : XFloat
  deriving Repr, DecidableEq

/-- `dates.diff().dt.days` between consecutive non-null rows: a pandas
`Timedelta.days` floors the difference towards minus infinity, here on
timestamps in seconds. -/
def dayGaps (ts : List ℤ) : List ℤ :=
  (ts.zip ts.tail).map (fun p => Int.fdiv (p.2 - p.1) 86400)

/-- `_calculate_change_velocity` (lines 462-482): non-null values with
their dates, `none` models the `{"error": "Insufficient data"}` result for
fewer than 3 points; `daily_changes = (values.diff() / dates.diff().dt.days).dropna()`
keeps infinities (only NaN is dropped), then mean/max/min are taken. -/
def calculateChangeVelocity (rows : List (ℤ × Option ℚ)) :
    Option VelocityResult :=
  let nonNull := rows.filterMap (fun r => r.2.map (fun v => (r.1, v)))
  if nonNull.length < 3 then none
  else
    let values := nonNull.map Prod.snd
    let gaps := dayGaps (nonNull.map Prod.fst)
    let rates := ((seriesDiff values).zip gaps).map (fun p => xdiv p.1 (p.2 : ℚ))
    let dailyChanges := rates.filter (fun x => x ≠ .nan)
    some {
      avg_daily_change := xround 4 (xmean dailyChanges)
      max_daily_change := xround 4 (xmaxList dailyChanges)
      min_daily_change := xround 4 (xminList dailyChanges)
    }

/-- Full result of `get_progress_predictions` (lines 190-224): `none`
models the `{"error": "Insufficient data for predictions"}` taken when
`len(data) < 10`; otherwise the batch result (confidence note omitted).
`nRows` is `len(data)`, the row count of the frame whose columns are
`cols`. -/
structure PredictionBatch where
  prediction_period : ℕ
  base_data_points : ℕ
  predictions : List (String × Prediction)
  deriving Repr, DecidableEq

def getProgressPredictions (nRows : ℕ)
    (cols : List (String × List (Option ℚ))) (daysAhead : ℕ) :
    Option PredictionBatch :=
  if nRows < 10 then none
  else some {
    prediction_period := daysAhead
    base_data_points := nRows
    predictions := progressPredictions cols daysAhead
  }

/-! # Helper lemmas -/

/-- `pyRound` fixes zero. -/
lemma pyRound_zero (n : ℕ) : pyRound n 0 = 0 := by
  simp [pyRound]

/-- A sum of a list of nonnegative rationals is nonnegative. -/
lemma qsum_nonneg {l : List ℚ} (h : ∀ x ∈ l, 0 ≤ x) : 0 ≤ qsum l := by
  induction l with
  | nil => simp [qsum]
  | cons a t ih =>
    have ha := h a (by simp)
    have ht : 0 ≤ qsum t := ih (fun x hx => h x (by simp [hx]))
    simpa [qsum] using add_nonneg ha ht

/-- The centred sum of squares is nonnegative. -/
lemma ssSum_nonneg (l : List ℚ) : 0 ≤ ssSum l := by
  refine qsum_nonneg ?_
  intro x hx
  rcases List.mem_map.mp hx with ⟨y, _, rfl⟩
  positivity

/-- The sample variance of a list of length ≥ 2 is nonnegative. -/
lemma sampleVar_nonneg {l : List ℚ} (h : 2 ≤ l.length) : 0 ≤ sampleVar l := by
  have hnum : 0 ≤ qsum (l.map (fun x => (x - qmean l) ^ 2)) := by
    refine qsum_nonneg ?_
    intro x hx
    rcases List.mem_map.mp hx with ⟨y, _, rfl⟩
    positivity
  have hden : (0 : ℚ) < (l.length : ℚ) - 1 := by
    have : (2 : ℚ) ≤ (l.length : ℚ) := by exact_mod_cast h
    linarith
  exact div_nonneg hnum (le_of_lt hden)

/-- `oLt` on a non-null cell is the plain comparison. -/
lemma oLt_some (x c : ℚ) : oLt (some x) c = decide (x < c) := rfl

/-- `oGt` on a non-null cell is the plain comparison. -/
lemma oGt_some (x c : ℚ) : oGt (some x) c = decide (x > c) := rfl

/-! # Claim theorems -/

/-- **C1.** Goal feasibility in `check_goal_progress` is classified by the
ordered strict ladder: `"aggressive"` iff `|rate| > 1.0`, `"challenging"`
iff `0.5 < |rate| ≤ 1.0`, `"conservative"` iff `|rate| < 0.2`, and
`"realistic"` iff `0.2 ≤ |rate| ≤ 0.5`; for current weight 80 kg, target
75 kg and exactly 10 weeks (70 days) remaining the required weekly rate is
exactly 0.5 and the label is not `"aggressive"` (it is `"realistic"`). -/
theorem feasibility_ladder_strict :
    (∀ r : ℚ,
      (assessFeasibility r = "aggressive" ↔ |r| > 1) ∧
      (assessFeasibility r = "challenging" ↔ 1/2 < |r| ∧ |r| ≤ 1) ∧
      (assessFeasibility r = "conservative" ↔ |r| < 1/5) ∧
      (assessFeasibility r = "realistic" ↔ 1/5 ≤ |r| ∧ |r| ≤ 1/2)) ∧
    ((checkGoalProgress 80 75 (70 * 86400) 0).map
        (fun g => (g.required_weekly_rate, g.feasibility)) =
      some (1/2, "realistic")) ∧
    (∀ g, checkGoalProgress 80 75 (70 * 86400) 0 = some g →
      g.feasibility ≠ "aggressive") := by
  have hday : daysRemaining (70 * 86400) 0 = 70 := rfl
  have hgoal : checkGoalProgress 80 75 (70 * 86400) 0 =
      some { weight_to_change := 5, days_remaining := 70, weeks_remaining := 10,
             required_weekly_rate := 1/2, feasibility := "realistic" } := by
    rw [checkGoalProgress, hday]
    norm_num [assessFeasibility, pyRound, abs_of_nonneg]
  refine ⟨?_, by rw [hgoal]; rfl, ?_⟩
  · intro r
    unfold assessFeasibility
    split_ifs with h1 h2 h3
    · exact ⟨iff_of_true rfl h1,
        iff_of_false (by decide) (fun h => absurd h1 (not_lt.mpr h.2)),
        iff_of_false (by decide) (fun h => by linarith),
        iff_of_false (by decide) (fun h => by linarith [h.2])⟩
    · exact ⟨iff_of_false (by decide) h1,
        iff_of_true rfl ⟨h2, le_of_not_lt h1⟩,
        iff_of_false (by decide) (fun h => by linarith),
        iff_of_false (by decide) (fun h => by linarith [h.2])⟩
    · exact ⟨iff_of_false (by decide) h1,
        iff_of_false (by decide) (fun h => absurd h.1 (by simpa using h2)),
        iff_of_true rfl h3,
        iff_of_false (by decide) (fun h => by linarith [h.1])⟩
    · exact ⟨iff_of_false (by decide) h1,
        iff_of_false (by decide) (fun h => absurd h.1 (by simpa using h2)),
        iff_of_false (by decide) h3,
        iff_of_true rfl ⟨le_of_not_lt h3, le_of_not_lt h2⟩⟩
  · intro g hg hfeas
    rw [hg] at hgoal
    simp only [Option.some.injEq] at hgoal
    rw [hgoal] at hfeas
    exact absurd hfeas (by decide)

/-- Witness for `feasibility_ladder_strict`: its hypotheses discharged at
the concrete goal result of the 80 kg → 75 kg, 70-day case. -/
theorem feasibility_ladder_strict_witness :
    ({ weight_to_change := 5, days_remaining := 70, weeks_remaining := 10,
       required_weekly_rate := 1/2, feasibility := "realistic" } : GoalResult).feasibility
      ≠ "aggressive" :=
  feasibility_ladder_strict.2.2 _ (by
    rw [checkGoalProgress, show daysRemaining (70 * 86400) 0 = 70 from rfl]
    norm_num [assessFeasibility, pyRound, abs_of_nonneg])

/-- **C4.** In every percent-change computation — the windowed trend
(`_calculate_trend`), the full-series analysis (`_analyze_metric_trend`)
and the period changes (`_calculate_period_changes`) — a baseline (start)
value of exactly 0 yields `percent_change = 0`; the division branch is
skipped on a zero baseline, so no division by zero can occur. -/
theorem zero_baseline_percent_change_is_zero :
    (∀ (rows : List (ℤ × Option ℚ)) (days : ℤ) (t : TrendResult),
      calculateTrend rows days = some t →
      (windowValues rows days).head! = 0 →
      t.percent_change = 0) ∧
    (∀ (col : List (Option ℚ)) (a : MetricAnalysis),
      analyzeMetricTrend col = some a →
      (col.filterMap id).head! = 0 →
      a.total_change_percent = 0) ∧
    (∀ endVal : ℚ, (periodChange 0 endVal).2 = 0) := by
  refine ⟨?_, ?_, ?_⟩
  · intro rows days t ht h0
    rw [calculateTrend] at ht
    simp only at ht
    split_ifs at ht with h1 h2 h3
    · exact absurd h0 h3
    · simp only [Option.some.injEq] at ht
      rw [← ht]
      exact pyRound_zero 2
  · intro col a ha h0
    rw [analyzeMetricTrend] at ha
    simp only at ha
    split_ifs at ha with h1 h2
    · exact absurd h0 h2
    · simp only [Option.some.injEq] at ha
      rw [← ha]
  · intro endVal
    simp [periodChange, pyRound_zero]

/-- Witness for `zero_baseline_percent_change_is_zero` at the concrete
zero-baseline series `[0, 5]`. -/
theorem zero_baseline_percent_change_is_zero_witness :
    ∃ t : TrendResult,
      calculateTrend [((0:ℤ), some (0:ℚ)), (86400, some 5)] 30 = some t ∧
      t.percent_change = 0 ∧
      ∃ a : MetricAnalysis,
        analyzeMetricTrend [some (0:ℚ), some 5] = some a ∧
        a.total_change_percent = 0 ∧
        (periodChange 0 5).2 = 0 := by
  obtain ⟨t, ht⟩ : ∃ t, calculateTrend [((0:ℤ), some (0:ℚ)), (86400, some 5)] 30 = some t :=
    ⟨_, rfl⟩
  obtain ⟨a, ha⟩ : ∃ a, analyzeMetricTrend [some (0:ℚ), some 5] = some a := ⟨_, rfl⟩
  exact ⟨t, ht, zero_baseline_percent_change_is_zero.1 _ 30 _ ht rfl,
    a, ha, zero_baseline_percent_change_is_zero.2.1 _ _ ha rfl,
    zero_baseline_percent_change_is_zero.2.2 5⟩

set_option maxHeartbeats 1600000 in
/-- **C2.** Achievement detection compares the first and last record with
strict inequalities: a weight_loss entry exists iff the weight change is
strictly below −5 (so exactly −5.0 triggers nothing, −5.01 is
"significant", −10.01 is "major"); a weight_gain entry exists iff the
change is strictly above 2; fat_loss iff the body-fat change is strictly
below −2 ("major" exactly when the drop exceeds 5); muscle_gain iff the
muscle-mass change is strictly above 1. -/
theorem achievement_thresholds_strict :
    (∀ (df : List Row) (w0 w1 : ℚ), 2 ≤ df.length →
      df.head!.weight_kg = some w0 → df.getLast!.weight_kg = some w1 →
      ((∃ a ∈ identifyAchievements df, a.type = "weight_loss") ↔ w1 - w0 < -5) ∧
      ((∃ a ∈ identifyAchievements df, a.type = "weight_gain") ↔ w1 - w0 > 2) ∧
      (w1 - w0 < -5 →
        ({ type := "weight_loss", value := some |w1 - w0|,
           category := if |w1 - w0| > 10 then "major" else "significant" } : Achievement)
          ∈ identifyAchievements df)) ∧
    (∀ (df : List Row) (f0 f1 : ℚ), 2 ≤ df.length →
      df.head!.body_fat_percent = some f0 → df.getLast!.body_fat_percent = some f1 →
      ((∃ a ∈ identifyAchievements df, a.type = "fat_loss") ↔ f1 - f0 < -2) ∧
      (f1 - f0 < -2 →
        ({ type := "fat_loss", value := some |f1 - f0|,
           category := if |f1 - f0| > 5 then "major" else "significant" } : Achievement)
          ∈ identifyAchievements df)) ∧
    (∀ (df : List Row) (m0 m1 : ℚ), 2 ≤ df.length →
      df.head!.muscle_mass_kg = some m0 → df.getLast!.muscle_mass_kg = some m1 →
      ((∃ a ∈ identifyAchievements df, a.type = "muscle_gain") ↔ m1 - m0 > 1)) ∧
    (¬ ∃ a ∈ identifyAchievements
      [{ date := 0, weight_kg := some 80 }, { date := 1, weight_kg := some 75 }],
      a.type = "weight_loss") ∧
    (({ type := "weight_loss", value := some (501/100), category := "significant" } : Achievement)
      ∈ identifyAchievements
        [{ date := 0, weight_kg := some 80 }, { date := 1, weight_kg := some (7499/100) }]) ∧
    (({ type := "weight_loss", value := some (1001/100), category := "major" } : Achievement)
      ∈ identifyAchievements
        [{ date := 0, weight_kg := some 80 }, { date := 1, weight_kg := some (6999/100) }]) := by
  have wpart : ∀ (df : List Row) (w0 w1 : ℚ), 2 ≤ df.length →
      df.head!.weight_kg = some w0 → df.getLast!.weight_kg = some w1 →
      ((∃ a ∈ identifyAchievements df, a.type = "weight_loss") ↔ w1 - w0 < -5) ∧
      ((∃ a ∈ identifyAchievements df, a.type = "weight_gain") ↔ w1 - w0 > 2) ∧
      (w1 - w0 < -5 →
        ({ type := "weight_loss", value := some |w1 - w0|,
           category := if |w1 - w0| > 10 then "major" else "significant" } : Achievement)
          ∈ identifyAchievements df) := by
    intro df w0 w1 h2 hw0 hw1
    have hsub : subOpt df.getLast!.weight_kg df.head!.weight_kg = some (w1 - w0) := by
      rw [hw1, hw0]
      rfl
    simp only [identifyAchievements]
    rw [if_neg (by omega), hsub]
    simp only [Option.map_some, oLt_some, oGt_some, decide_eq_true_eq]
    split_ifs <;> simp_all [List.mem_append, oLt_some, oGt_some] <;> linarith
  refine ⟨wpart, ?_, ?_, ?_, ?_, ?_⟩
  · intro df f0 f1 h2 hf0 hf1
    have hsub : subOpt df.getLast!.body_fat_percent df.head!.body_fat_percent
        = some (f1 - f0) := by
      rw [hf1, hf0]
      rfl
    simp only [identifyAchievements]
    rw [if_neg (by omega), hsub]
    simp only [Option.map_some, oLt_some, oGt_some, decide_eq_true_eq]
    split_ifs <;> simp_all [List.mem_append, oLt_some, oGt_some] <;> linarith
  · intro df m0 m1 h2 hm0 hm1
    have hsub : subOpt df.getLast!.muscle_mass_kg df.head!.muscle_mass_kg
        = some (m1 - m0) := by
      rw [hm1, hm0]
      rfl
    simp only [identifyAchievements]
    rw [if_neg (by omega), hsub]
    simp only [Option.map_some, oLt_some, oGt_some, decide_eq_true_eq]
    split_ifs <;> simp_all [List.mem_append, oLt_some, oGt_some] <;> linarith
  · intro hex
    have h := (wpart
      [{ date := 0, weight_kg := some 80 }, { date := 1, weight_kg := some 75 }]
      80 75 (by decide) rfl rfl).1.mp hex
    norm_num at h
  · have h := (wpart
      [{ date := 0, weight_kg := some 80 }, { date := 1, weight_kg := some (7499/100) }]
      80 (7499/100) (by decide) rfl rfl).2.2 (by norm_num)
    norm_num [abs_of_nonneg] at h
    convert h using 2 <;> norm_num [abs_of_nonneg]
  · have h := (wpart
      [{ date := 0, weight_kg := some 80 }, { date := 1, weight_kg := some (6999/100) }]
      80 (6999/100) (by decide) rfl rfl).2.2 (by norm_num)
    norm_num [abs_of_nonneg] at h
    convert h using 2 <;> norm_num [abs_of_nonneg]

/-- Witness for `achievement_thresholds_strict`: hypotheses discharged at a
concrete two-row series losing 5.01 kg of weight, 3 points of body fat and
gaining 2 kg of muscle. -/
theorem achievement_thresholds_strict_witness :
    ((∃ a ∈ identifyAchievements
        [{ date := 0, weight_kg := some 80, body_fat_percent := some 30,
           muscle_mass_kg := some 30 },
         { date := 1, weight_kg := some (7499/100), body_fat_percent := some 27,
           muscle_mass_kg := some 32 }], a.type = "weight_loss") ↔
      (7499/100 : ℚ) - 80 < -5) ∧
    ((∃ a ∈ identifyAchievements
        [{ date := 0, weight_kg := some 80, body_fat_percent := some 30,
           muscle_mass_kg := some 30 },
         { date := 1, weight_kg := some (7499/100), body_fat_percent := some 27,
           muscle_mass_kg := some 32 }], a.type = "fat_loss") ↔
      (27 : ℚ) - 30 < -2) ∧
    ((∃ a ∈ identifyAchievements
        [{ date := 0, weight_kg := some 80, body_fat_percent := some 30,
           muscle_mass_kg := some 30 },
         { date := 1, weight_kg := some (7499/100), body_fat_percent := some 27,
           muscle_mass_kg := some 32 }], a.type = "muscle_gain") ↔
      (32 : ℚ) - 30 > 1) :=
  ⟨(achievement_thresholds_strict.1
      [{ date := 0, weight_kg := some 80, body_fat_percent := some 30,
         muscle_mass_kg := some 30 },
       { date := 1, weight_kg := some (7499/100), body_fat_percent := some 27,
         muscle_mass_kg := some 32 }] 80 (7499/100) (by decide) rfl rfl).1,
   (achievement_thresholds_strict.2.1
      [{ date := 0, weight_kg := some 80, body_fat_percent := some 30,
         muscle_mass_kg := some 30 },
       { date := 1, weight_kg := some (7499/100), body_fat_percent := some 27,
         muscle_mass_kg := some 32 }] 30 27 (by decide) rfl rfl).1,
   achievement_thresholds_strict.2.2.1
      [{ date := 0, weight_kg := some 80, body_fat_percent := some 30,
         muscle_mass_kg := some 30 },
       { date := 1, weight_kg := some (7499/100), body_fat_percent := some 27,
         muscle_mass_kg := some 32 }] 30 32 (by decide) rfl rfl⟩

/-- **C10.** The per-step rate division of `_calculate_change_velocity` is
unguarded against a zero day gap: a series of 3 non-null points taken
within the same day (consecutive day differences 0) makes the daily-rate
divisions divide by zero, and the reported avg/max/min daily changes are
infinities — not finite numbers. -/
theorem velocity_zero_day_gap_division_by_zero :
    ∃ rows : List (ℤ × Option ℚ),
      3 ≤ (rows.filterMap Prod.snd).length ∧
      (0 : ℤ) ∈ dayGaps ((rows.filterMap (fun r => r.2.map (fun v => (r.1, v)))).map Prod.fst) ∧
      ∃ v : VelocityResult, calculateChangeVelocity rows = some v ∧
        v.avg_daily_change.isFinite = false ∧
        v.max_daily_change.isFinite = false ∧
        v.min_daily_change.isFinite = false :=
  ⟨[(0, some 80), (3600, some 81), (7200, some 82)],
   by with_unfolding_all decide,
   by with_unfolding_all decide,
   { avg_daily_change := .inf, max_daily_change := .inf, min_daily_change := .inf },
   by with_unfolding_all rfl, rfl, rfl, rfl⟩

/-- **C6 counterexample.** The claim says every target date strictly after
the latest measurement timestamp avoids the invalid-goal error; but with
the latest measurement at 12:00:00 of day 0 (second 43200) and the target
at the next midnight (second 86400) — strictly in the future — the
timedelta floors to 0 days and `check_goal_progress` still returns the
`"Target date must be in the future"` error. -/
theorem goal_strictly_future_target_still_errors :
    (43200 : ℤ) < 86400 ∧ checkGoalProgress 80 75 86400 43200 = none :=
  ⟨by decide, by with_unfolding_all rfl⟩

/-- **C6 (amended).** `check_goal_progress` returns the invalid-goal error
exactly when the floored day difference is ≤ 0, i.e. exactly when the
target midnight is less than one full day (86400 s) after the latest
measurement timestamp. In particular every target at or before the latest
measurement errors, but so do strictly-future targets within the same
24-hour window. -/
theorem invalid_goal_iff_target_within_one_day
    (cw tw : ℚ) (targetSec currentSec : ℤ) :
    checkGoalProgress cw tw targetSec currentSec = none ↔
      targetSec - currentSec < 86400 := by
  have hfd : daysRemaining targetSec currentSec =
      (targetSec - currentSec) / 86400 := by
    rw [daysRemaining, Int.fdiv_eq_ediv _ (by decide)]
  rw [checkGoalProgress]
  simp only [hfd]
  split_ifs with h
  · simp only [true_iff]
    omega
  · simp only [reduceCtorEq, false_iff, not_lt]
    omega

/-- Witness for `invalid_goal_iff_target_within_one_day` (a target one hour
after the latest measurement is within the 24-hour window and errors). -/
theorem invalid_goal_iff_target_within_one_day_witness :
    checkGoalProgress 80 75 3600 0 = none :=
  (invalid_goal_iff_target_within_one_day 80 75 3600 0).mpr (by decide)

/-- **C9 counterexample.** Health-insight generation is not a pure function
of the latest measurement on every series with at least one record:
`_generate_health_insights` returns `[]` for any single-measurement series
(its `len(df) < 2` guard), so a singleton series with BMI 17 yields no
insights, while a two-record series with the same latest record yields the
underweight advisory. -/
theorem health_insights_not_pure_in_latest :
    generateHealthInsights [{ date := 0, bmi := some 17 }] = [] ∧
    ([{ date := -1, bmi := some 30 }, { date := 0, bmi := some 17 }] : List Row).getLast!
      = { date := 0, bmi := some 17 } ∧
    generateHealthInsights [{ date := -1, bmi := some 30 }, { date := 0, bmi := some 17 }] ≠
      generateHealthInsights [{ date := 0, bmi := some 17 }] :=
  ⟨rfl, rfl, by with_unfolding_all decide⟩

set_option maxHeartbeats 2000000 in
/-- **C9 (amended).** For every series with at least **two** measurements,
the advisory strings are a pure function of the single latest record,
banding BMI at `<18.5` underweight, `18.5–25` normal, `25–30` overweight,
`≥30` obese, and body-water percent at `<50` low and `>65` high; a
single-measurement series produces no insights at all. -/
theorem health_insights_pure_of_latest_bands :
    (∀ df : List Row, 2 ≤ df.length →
      generateHealthInsights df = insightsOfLatest df.getLast!) ∧
    (∀ df : List Row, df.length < 2 → generateHealthInsights df = []) ∧
    (∀ (r : Row) (b : ℚ), r.bmi = some b →
      (("Your BMI indicates you're underweight. Consider consulting a nutritionist."
          ∈ insightsOfLatest r) ↔ b < 37/2) ∧
      (("Your BMI is in the healthy range. Great job maintaining a healthy weight!"
          ∈ insightsOfLatest r) ↔ 37/2 ≤ b ∧ b < 25) ∧
      (("Your BMI indicates you're overweight. Focus on creating a caloric deficit."
          ∈ insightsOfLatest r) ↔ 25 ≤ b ∧ b < 30) ∧
      (("Your BMI indicates obesity. Consider consulting a healthcare professional."
          ∈ insightsOfLatest r) ↔ 30 ≤ b)) ∧
    (∀ (r : Row) (w : ℚ), r.body_water_percent = some w →
      (("Your body water percentage seems low. Ensure adequate hydration."
          ∈ insightsOfLatest r) ↔ w < 50) ∧
      (("Your body water percentage is high, which is generally positive."
          ∈ insightsOfLatest r) ↔ w > 65)) := by
  refine ⟨?_, ?_, ?_, ?_⟩
  · intro df h2
    rw [generateHealthInsights, if_neg (by omega)]
  · intro df h2
    rw [generateHealthInsights, if_pos h2]
  · intro r b hb
    rcases hf : r.body_fat_percent with _ | f <;>
      rcases hw : r.body_water_percent with _ | w <;>
      simp only [insightsOfLatest, hb, hf, hw] <;>
      split_ifs <;>
      simp_all [List.mem_append] <;>
      (repeat' constructor) <;> intros <;> linarith
  · intro r w hw
    rcases hb : r.bmi with _ | b <;>
      rcases hf : r.body_fat_percent with _ | f <;>
      simp only [insightsOfLatest, hb, hf, hw] <;>
      split_ifs <;>
      simp_all [List.mem_append] <;>
      (repeat' constructor) <;> intros <;> linarith

/-- Witness for `health_insights_pure_of_latest_bands` at a concrete
two-record series whose latest record has BMI 17 and body water 45. -/
theorem health_insights_pure_of_latest_bands_witness :
    generateHealthInsights
        [{ date := -1, bmi := some 30 },
         { date := 0, bmi := some 17, body_water_percent := some 45 }] =
      insightsOfLatest { date := 0, bmi := some 17, body_water_percent := some 45 } ∧
    ("Your BMI indicates you're underweight. Consider consulting a nutritionist."
      ∈ insightsOfLatest { date := 0, bmi := some 17, body_water_percent := some 45 }) ∧
    ("Your body water percentage seems low. Ensure adequate hydration."
      ∈ insightsOfLatest { date := 0, bmi := some 17, body_water_percent := some 45 }) :=
  ⟨health_insights_pure_of_latest_bands.1 _ (by decide),
   (health_insights_pure_of_latest_bands.2.2.1
      { date := 0, bmi := some 17, body_water_percent := some 45 } 17 rfl).1.mpr
      (by norm_num),
   (health_insights_pure_of_latest_bands.2.2.2
      { date := 0, bmi := some 17, body_water_percent := some 45 } 45 rfl).1.mpr
      (by norm_num)⟩

/-- `_predict_metric` succeeds (returns a result) whenever the metric has
at least 5 non-null points. -/
lemma predictMetric_isSome {col : List (Option ℚ)} (d : ℕ)
    (h : 5 ≤ nonNullCount col) : ∃ p, predictMetric col d = some p := by
  rw [predictMetric]
  simp only [nonNullCount] at h
  rw [if_neg (by omega)]
  exact ⟨_, rfl⟩

/-- **C3 counterexample.** The claim says a prediction is produced exactly
when the metric has at least 5 non-null points; but the batch gate of
`get_progress_predictions` is `notna().sum() > 5` (strict), so a metric
with exactly 5 non-null points — from which `_predict_metric` itself does
produce a result — is omitted from the batch. -/
theorem five_point_metric_omitted_from_batch :
    nonNullCount [some (1:ℚ), some 2, some 3, some 4, some 5] = 5 ∧
    (∃ p, predictMetric [some (1:ℚ), some 2, some 3, some 4, some 5] 30 = some p) ∧
    progressPredictions [("weight_kg", [some (1:ℚ), some 2, some 3, some 4, some 5])] 30
      = [] :=
  ⟨rfl, ⟨_, rfl⟩, rfl⟩

/-- **C3 (amended).** In the prediction batch of
`get_progress_predictions`, a metric receives a prediction exactly when it
is one of the four predicted metrics, its column exists and it has
strictly more than 5 non-null points (the batch gate is the strict
`notna().sum() > 5`, although `_predict_metric` alone succeeds from 5
points); a metric below the gate is omitted from the result set without
failing the batch, and absence is not an error: with 3 valid points for
weight_kg and 20 for bmi in the same 20-row call, the result is a normal
batch containing a prediction for bmi and none for weight_kg. -/
theorem progress_predictions_gate :
    (∀ (cols : List (String × List (Option ℚ))) (d : ℕ) (m : String)
       (col : List (Option ℚ)),
      cols.find? (fun c => c.1 = m) = some (m, col) →
      ((∃ p, (m, p) ∈ progressPredictions cols d) ↔
        m ∈ metricsToPredict ∧ nonNullCount col > 5)) ∧
    (∀ (col : List (Option ℚ)) (d : ℕ),
      5 ≤ nonNullCount col → ∃ p, predictMetric col d = some p) ∧
    (∃ batch, getProgressPredictions 20
        [("weight_kg", [some (1:ℚ), some 2, some 3] ++ List.replicate 17 none),
         ("bmi", (List.range 20).map (fun i => some (i:ℚ)))] 30 = some batch ∧
      (∃ p, ("bmi", p) ∈ batch.predictions) ∧
      (∀ p, ("weight_kg", p) ∉ batch.predictions)) := by
  have main : ∀ (cols : List (String × List (Option ℚ))) (d : ℕ) (m : String)
      (col : List (Option ℚ)),
      cols.find? (fun c => c.1 = m) = some (m, col) →
      ((∃ p, (m, p) ∈ progressPredictions cols d) ↔
        m ∈ metricsToPredict ∧ nonNullCount col > 5) := by
    intro cols d m col hfind
    constructor
    · rintro ⟨p, hp⟩
      rw [progressPredictions] at hp
      obtain ⟨a, ham, hfa⟩ := List.mem_filterMap.mp hp
      cases hcf : (cols.find? (fun c => c.1 = a)).map Prod.snd with
      | none =>
        rw [hcf] at hfa
        exact absurd (show (none : Option (String × Prediction)) = some (m, p) from hfa)
          (by simp)
      | some c =>
        rw [hcf] at hfa
        have hfa2 : (if nonNullCount c > 5 then
            Option.map (fun p => (a, p)) (predictMetric c d) else none) = some (m, p) := hfa
        split_ifs at hfa2 with hc
        obtain ⟨q, _, heq⟩ := Option.map_eq_some'.mp hfa2
        obtain ⟨rfl, rfl⟩ := Prod.mk.injEq .. ▸ heq
        rw [hfind] at hcf
        simp only [Option.map_some', Option.some.injEq] at hcf
        exact ⟨ham, hcf ▸ hc⟩
    · rintro ⟨hm, hcount⟩
      obtain ⟨p, hp⟩ := predictMetric_isSome d (le_of_lt hcount)
      refine ⟨p, ?_⟩
      rw [progressPredictions]
      refine List.mem_filterMap.mpr ⟨m, hm, ?_⟩
      rw [hfind]
      simp only [Option.map_some']
      rw [if_pos hcount, hp]
      rfl
  refine ⟨main, fun col d h => predictMetric_isSome d h, ?_⟩
  refine ⟨_, rfl, ?_, ?_⟩
  · show ∃ p, ("bmi", p) ∈ progressPredictions
        [("weight_kg", [some (1:ℚ), some 2, some 3] ++ List.replicate 17 none),
         ("bmi", (List.range 20).map (fun i => some (i:ℚ)))] 30
    exact (main _ 30 "bmi" ((List.range 20).map (fun i => some (i:ℚ)))
        (by with_unfolding_all rfl)).mpr
      ⟨by decide, by with_unfolding_all decide⟩
  · intro p hp
    have hp' : ("weight_kg", p) ∈ progressPredictions
        [("weight_kg", [some (1:ℚ), some 2, some 3] ++ List.replicate 17 none),
         ("bmi", (List.range 20).map (fun i => some (i:ℚ)))] 30 := hp
    have h := (main _ 30 "weight_kg"
        ([some (1:ℚ), some 2, some 3] ++ List.replicate 17 none)
        (by with_unfolding_all rfl)).mp ⟨p, hp'⟩
    exact absurd h.2 (by with_unfolding_all decide)

/-- Witness for `progress_predictions_gate`: its hypotheses discharged at a
concrete single-column batch with 6 valid points. -/
theorem progress_predictions_gate_witness :
    ∃ p, ("weight_kg", p) ∈ progressPredictions
      [("weight_kg", [some (1:ℚ), some 2, some 3, some 4, some 5, some 6])] 30 :=
  (progress_predictions_gate.1
      [("weight_kg", [some (1:ℚ), some 2, some 3, some 4, some 5, some 6])] 30
      "weight_kg" [some (1:ℚ), some 2, some 3, some 4, some 5, some 6]
      (by with_unfolding_all rfl)).mpr
    ⟨by decide, by decide⟩

/-- Two sorted (by date) lists of rows that are permutations of each other
and whose dates are pairwise distinct are equal. -/
lemma sorted_perm_eq_of_nodup_dates :
    ∀ {l₁ l₂ : List Row}, l₁.Perm l₂ →
      l₁.Pairwise (fun a b => a.date ≤ b.date) →
      l₂.Pairwise (fun a b => a.date ≤ b.date) →
      (l₁.map Row.date).Nodup → l₁ = l₂ := by
  intro l₁
  induction l₁ with
  | nil =>
    intro l₂ hp _ _ _
    exact (hp.symm.eq_nil).symm
  | cons a t ih =>
    intro l₂ hp hs₁ hs₂ hnd
    cases l₂ with
    | nil => exact absurd hp.symm (by simp)
    | cons b u =>
      have hab : a = b := by
        have hbmem : b ∈ a :: t := hp.mem_iff.mpr (by simp)
        have hamem : a ∈ b :: u := hp.mem_iff.mp (by simp)
        rcases List.mem_cons.mp hbmem with rfl | hbt
        · rfl
        rcases List.mem_cons.mp hamem with heq | hau
        · exact heq
        have h1 : a.date ≤ b.date := (List.pairwise_cons.mp hs₁).1 b hbt
        have h2 : b.date ≤ a.date := (List.pairwise_cons.mp hs₂).1 a hau
        have hdate : a.date = b.date := le_antisymm h1 h2
        have hmem : a.date ∈ t.map Row.date :=
          hdate ▸ List.mem_map_of_mem Row.date hbt
        exact absurd hmem ((List.nodup_cons.mp hnd).1 ∘ fun h => h)
      subst hab
      have htu : t.Perm u := hp.cons_inv
      have := ih htu (List.pairwise_cons.mp hs₁).2 (List.pairwise_cons.mp hs₂).2
        (List.nodup_cons.mp hnd).2
      rw [this]

/-- The `mergeSort`-based `sortByDate` yields a date-sorted list. -/
lemma sortByDate_pairwise (data : List Row) :
    (sortByDate data).Pairwise (fun a b => a.date ≤ b.date) := by
  have h := @List.sorted_mergeSort Row
    (fun a b : Row => decide (a.date ≤ b.date))
    (fun a b c hab hbc => by
      simp only [decide_eq_true_eq] at *
      omega)
    (fun a b => by
      simp only [Bool.or_eq_true, decide_eq_true_eq]
      omega)
    data
  exact h.imp (fun hab => by simpa using hab)

/-- A sum of rationals is invariant under permutation. -/
lemma qsum_perm {l l' : List ℚ} (h : l.Perm l') : qsum l = qsum l' := by
  have : ∀ m : List ℚ, qsum m = m.sum := by
    intro m
    induction m with
    | nil => rfl
    | cons x xs ihx => simp [qsum, List.sum_cons, ← ihx, qsum]
  rw [this, this, h.sum_eq]

/-- Joint extraction of two metric columns from the raw record list: the
pairwise-complete observations of `get_metric_correlations` seen as one
`filterMap` over the rows. -/
lemma pairedObs_map (f g : Row → Option ℚ) :
    ∀ data : List Row,
      pairedObs (data.map f) (data.map g) =
        data.filterMap (fun r =>
          match f r, g r with
          | some x, some y => some (x, y)
          | _, _ => none) := by
  intro data
  induction data with
  | nil => rfl
  | cons r rest ihr =>
    simp only [List.map_cons, pairedObs, List.zip_cons_cons, List.filterMap_cons] at *
    cases f r <;> cases g r <;> simp_all [pairedObs]

/-- `covSum` only depends on the underlying multiset of paired points. -/
lemma covSum_perm {ps ps' : List (ℚ × ℚ)} (h : ps.Perm ps') :
    covSum ps = covSum ps' := by
  have hx : qmean (ps.map Prod.fst) = qmean (ps'.map Prod.fst) := by
    rw [qmean, qmean, qsum_perm (h.map Prod.fst), (h.map Prod.fst).length_eq]
  have hy : qmean (ps.map Prod.snd) = qmean (ps'.map Prod.snd) := by
    rw [qmean, qmean, qsum_perm (h.map Prod.snd), (h.map Prod.snd).length_eq]
  rw [covSum, covSum, hx, hy]
  exact qsum_perm (h.map _)

/-- `ssSum` only depends on the underlying multiset. -/
lemma ssSum_perm {l l' : List ℚ} (h : l.Perm l') : ssSum l = ssSum l' := by
  have hm : qmean l = qmean l' := by
    rw [qmean, qmean, qsum_perm h, h.length_eq]
  rw [ssSum, ssSum, hm]
  exact qsum_perm (h.map _)

/-- `corrEntry` on jointly permuted columns is unchanged. -/
lemma corrEntry_perm (f g : Row → Option ℚ) {data data' : List Row}
    (h : data.Perm data') :
    corrEntry (data.map f) (data.map g) = corrEntry (data'.map f) (data'.map g) := by
  have hps : (pairedObs (data.map f) (data.map g)).Perm
      (pairedObs (data'.map f) (data'.map g)) := by
    rw [pairedObs_map, pairedObs_map]
    exact h.filterMap _
  rw [corrEntry, corrEntry,
    ssSum_perm (hps.map Prod.fst), ssSum_perm (hps.map Prod.snd), covSum_perm hps]

/-- **C8 counterexample.** The overview's `latest_measurement` field is
taken from `data[0]` of the snapshot as returned by the Data Access
collaborator, *before* the engine's `df.sort_values('date')`: permuting the
two records of a snapshot changes the reported `latest_measurement`, so the
output is not invariant under the collaborator's return order. -/
theorem latest_measurement_depends_on_return_order :
    ([({ date := 2 } : Row), { date := 1 }] : List Row).Perm [{ date := 1 }, { date := 2 }] ∧
    latestMeasurementField [({ date := 2 } : Row), { date := 1 }] = some 2 ∧
    latestMeasurementField [({ date := 1 } : Row), { date := 2 }] = some 1 ∧
    latestMeasurementField [({ date := 2 } : Row), { date := 1 }] ≠
      latestMeasurementField [({ date := 1 } : Row), { date := 2 }] :=
  ⟨List.Perm.swap _ _ _, rfl, rfl, by decide⟩

/-- **C8 (amended).** For snapshots with pairwise-distinct timestamps,
every output field computed from the date-sorted frame is invariant under
permutation of the order in which the Data Access collaborator returns the
records — the sorted frame itself is permutation-invariant, hence e.g. the
`current_stats` value of a metric is too — and the Pearson entries of
`get_metric_correlations` (which performs no sort) are permutation
invariant as well; but `overview.latest_measurement`, read from the first
returned record, is order-dependent. -/
theorem sorted_frame_order_invariant :
    (∀ data data' : List Row, data.Perm data' → (data.map Row.date).Nodup →
      sortByDate data = sortByDate data') ∧
    (∀ data data' : List Row, data.Perm data' → (data.map Row.date).Nodup →
      currentStatWeight data = currentStatWeight data') ∧
    (∀ (f g : Row → Option ℚ) (data data' : List Row), data.Perm data' →
      corrEntry (data.map f) (data.map g) = corrEntry (data'.map f) (data'.map g)) := by
  have hsort : ∀ data data' : List Row, data.Perm data' → (data.map Row.date).Nodup →
      sortByDate data = sortByDate data' := by
    intro data data' hp hnd
    have h1 : (sortByDate data).Perm (sortByDate data') :=
      ((List.mergeSort_perm data _).trans hp).trans (List.mergeSort_perm data' _).symm
    have hnd1 : ((sortByDate data).map Row.date).Nodup := by
      exact ((List.mergeSort_perm data _).map Row.date).nodup_iff.mpr hnd
    exact sorted_perm_eq_of_nodup_dates h1
      (sortByDate_pairwise data) (sortByDate_pairwise data') hnd1
  exact ⟨hsort,
    fun data data' hp hnd => by rw [currentStatWeight, currentStatWeight, hsort data data' hp hnd],
    fun f g data data' hp => corrEntry_perm f g hp⟩

/-- Witness for `sorted_frame_order_invariant` at a concrete two-row
snapshot returned in the two possible orders. -/
theorem sorted_frame_order_invariant_witness :
    sortByDate [({ date := 2, weight_kg := some 70 } : Row), { date := 1, weight_kg := some 80 }]
      = sortByDate [({ date := 1, weight_kg := some 80 } : Row), { date := 2, weight_kg := some 70 }] ∧
    currentStatWeight [({ date := 2, weight_kg := some 70 } : Row), { date := 1, weight_kg := some 80 }]
      = currentStatWeight [({ date := 1, weight_kg := some 80 } : Row), { date := 2, weight_kg := some 70 }] ∧
    corrEntry ([({ date := 2, weight_kg := some 70 } : Row), { date := 1, weight_kg := some 80 }].map Row.weight_kg)
        ([({ date := 2, weight_kg := some 70 } : Row), { date := 1, weight_kg := some 80 }].map Row.bmi)
      = corrEntry ([({ date := 1, weight_kg := some 80 } : Row), { date := 2, weight_kg := some 70 }].map Row.weight_kg)
        ([({ date := 1, weight_kg := some 80 } : Row), { date := 2, weight_kg := some 70 }].map Row.bmi) :=
  ⟨sorted_frame_order_invariant.1 _ _ (List.Perm.swap _ _ _) (by decide),
   sorted_frame_order_invariant.2.1 _ _ (List.Perm.swap _ _ _) (by decide),
   sorted_frame_order_invariant.2.2 Row.weight_kg Row.bmi _ _ (List.Perm.swap _ _ _)⟩

/-- The rational square comparison used by `trendDirection` is exactly the
source's float test `abs(slope) < 0.1 * std`, since
`(0.1·√var)² = var/100` and both sides are nonnegative. -/
lemma stable_cond_iff (slope v : ℚ) :
    slope ^ 2 < v / 100 ↔
      |(slope : ℝ)| < (1/10 : ℝ) * Real.sqrt (v : ℝ) := by
  have h10 : (1/10 : ℝ) * Real.sqrt (v : ℝ) = Real.sqrt ((v : ℝ)/100) := by
    rw [show ((v : ℝ)/100) = ((1/10 : ℝ))^2 * (v : ℝ) by ring,
      Real.sqrt_mul (by positivity) (v : ℝ), Real.sqrt_sq (by norm_num)]
  rw [h10, Real.lt_sqrt (abs_nonneg _), sq_abs]
  exact_mod_cast Iff.rfl

/-- **C5.** For every window that yields a trend result, the direction is
`"stable"` when `|OLS slope| < 0.1 ×` (standard deviation of the in-window
values), and otherwise `"increasing"`/`"decreasing"` by the sign of the
slope; on the series `weight_kg = [80, 79, 78, 77]` at unit index spacing
the regression slope is exactly −1, the direction is `"decreasing"` and
the percent change is (77−80)/80×100 = −3.75. -/
theorem trend_direction_policy :
    (∀ (rows : List (ℤ × Option ℚ)) (days : ℤ) (t : TrendResult),
      calculateTrend rows days = some t →
      ((|(olsSlope (windowValues rows days) : ℝ)| <
          (1/10 : ℝ) * Real.sqrt ((sampleVar (windowValues rows days) : ℚ) : ℝ) →
        t.trend = "stable") ∧
       ((1/10 : ℝ) * Real.sqrt ((sampleVar (windowValues rows days) : ℚ) : ℝ) ≤
          |(olsSlope (windowValues rows days) : ℝ)| →
        t.trend = if olsSlope (windowValues rows days) > 0
          then "increasing" else "decreasing"))) ∧
    (∃ t : TrendResult,
      calculateTrend [((0:ℤ), some (80:ℚ)), (86400, some 79), (2*86400, some 78),
        (3*86400, some 77)] 30 = some t ∧
      olsSlope (windowValues [((0:ℤ), some (80:ℚ)), (86400, some 79), (2*86400, some 78),
        (3*86400, some 77)] 30) = -1 ∧
      t.trend = "decreasing" ∧ t.slope = -1 ∧ t.percent_change = -15/4) := by
  constructor
  · intro rows days t ht
    rw [calculateTrend] at ht
    simp only at ht
    split_ifs at ht with h1 h2 h3 <;>
      simp only [Option.some.injEq] at ht <;>
      rw [← ht] <;>
      constructor <;> intro hcond
    · rw [trendDirection,
        if_pos ((stable_cond_iff _ _).mpr hcond)]
    · rw [trendDirection,
        if_neg (fun hc => absurd ((stable_cond_iff _ _).mp hc) (not_lt.mpr hcond))]
    · rw [trendDirection,
        if_pos ((stable_cond_iff _ _).mpr hcond)]
    · rw [trendDirection,
        if_neg (fun hc => absurd ((stable_cond_iff _ _).mp hc) (not_lt.mpr hcond))]
  · exact ⟨⟨"decreasing", -1, -3, -15/4, 4⟩,
      by with_unfolding_all rfl, by with_unfolding_all rfl, rfl, rfl, rfl⟩

/-- Witness for `trend_direction_policy` at the concrete decreasing series
`[80, 79, 78, 77]`: the slope −1 exceeds the stability threshold
`0.1·std ≈ 0.129`, so the policy gives `"decreasing"`. -/
theorem trend_direction_policy_witness :
    ∃ t : TrendResult,
      calculateTrend [((0:ℤ), some (80:ℚ)), (86400, some 79), (2*86400, some 78),
        (3*86400, some 77)] 30 = some t ∧ t.trend = "decreasing" := by
  refine ⟨⟨"decreasing", -1, -3, -15/4, 4⟩, by with_unfolding_all rfl, ?_⟩
  have hslope : olsSlope (windowValues [((0:ℤ), some (80:ℚ)), (86400, some 79),
      (2*86400, some 78), (3*86400, some 77)] 30) = -1 := by
    with_unfolding_all rfl
  have hvar : sampleVar (windowValues [((0:ℤ), some (80:ℚ)), (86400, some 79),
      (2*86400, some 78), (3*86400, some 77)] 30) = 5/3 := by
    with_unfolding_all rfl
  have hsqrt : (1/10 : ℝ) * Real.sqrt ((sampleVar (windowValues
        [((0:ℤ), some (80:ℚ)), (86400, some 79), (2*86400, some 78),
         (3*86400, some 77)] 30) : ℚ) : ℝ) ≤
      |(olsSlope (windowValues [((0:ℤ), some (80:ℚ)), (86400, some 79),
        (2*86400, some 78), (3*86400, some 77)] 30) : ℝ)| := by
    rw [hslope, hvar]
    have h1 : Real.sqrt (((5/3 : ℚ) : ℝ)) ≤ 10 := by
      rw [show (10:ℝ) = Real.sqrt (10^2) from (Real.sqrt_sq (by norm_num)).symm]
      apply Real.sqrt_le_sqrt
      push_cast
      norm_num
    push_cast
    push_cast at h1
    rw [abs_neg, abs_one]
    linarith
  have h := (trend_direction_policy.1 _ 30
      ⟨"decreasing", -1, -3, -15/4, 4⟩
      (by with_unfolding_all rfl)).2 hsqrt
  rw [hslope] at h

/-- The pairwise-complete observations of the reversed pair of columns are
the coordinate swaps of the original ones. -/
lemma pairedObs_swap :
    ∀ xs ys : List (Option ℚ),
      pairedObs ys xs = (pairedObs xs ys).map Prod.swap := by
  intro xs
  induction xs with
  | nil => intro ys; cases ys <;> rfl
  | cons x xt ih =>
    intro ys
    cases ys with
    | nil => rfl
    | cons y yt =>
      simp only [pairedObs, List.zip_cons_cons, List.filterMap_cons] at *
      cases x <;> cases y <;> simp_all [pairedObs, Prod.swap]

/-- The pairwise-complete observations of a column against itself are its
non-null values paired with themselves. -/
lemma pairedObs_self :
    ∀ xs : List (Option ℚ),
      pairedObs xs xs = (xs.filterMap id).map (fun a => (a, a)) := by
  intro xs
  induction xs with
  | nil => rfl
  | cons x xt ih =>
    simp only [pairedObs, List.zip_cons_cons, List.filterMap_cons] at *
    cases x <;> simp_all [pairedObs]

/-- The correlation matrix entry is symmetric in its two columns. -/
lemma corrEntry_symm (xs ys : List (Option ℚ)) :
    corrEntry xs ys = corrEntry ys xs := by
  have hswap := pairedObs_swap xs ys
  have hfst : (pairedObs ys xs).map Prod.fst = (pairedObs xs ys).map Prod.snd := by
    rw [hswap, List.map_map]; rfl
  have hsnd : (pairedObs ys xs).map Prod.snd = (pairedObs xs ys).map Prod.fst := by
    rw [hswap, List.map_map]; rfl
  have hcov : covSum (pairedObs ys xs) = covSum (pairedObs xs ys) := by
    rw [covSum, covSum, hfst, hsnd, hswap, List.map_map]
    congr 1
    refine List.map_congr_left ?_
    intro p _
    exact mul_comm _ _
  rw [corrEntry, corrEntry, hfst, hsnd, hcov, mul_comm]

/-- The stored denominator square of a produced matrix entry is positive. -/
lemma corrEntry_denSq_pos {xs ys : List (Option ℚ)} {e : ℚ × ℚ}
    (h : corrEntry xs ys = some e) : 0 < e.2 := by
  rw [corrEntry] at h
  split_ifs at h with hz
  simp only [Option.some.injEq] at h
  rw [← h]
  exact lt_of_le_of_ne
    (mul_nonneg (ssSum_nonneg _) (ssSum_nonneg _)) (Ne.symm hz)

/-- On the diagonal, a produced matrix entry denotes exactly `1`. -/
lemma corrEntry_diag (xs : List (Option ℚ))
    (h : ssSum (xs.filterMap id) ≠ 0) :
    corrEntry xs xs = some (ssSum (xs.filterMap id), ssSum (xs.filterMap id) ^ 2) ∧
    corrValue (ssSum (xs.filterMap id), ssSum (xs.filterMap id) ^ 2) = 1 := by
  set l := xs.filterMap id with hl
  have hself := pairedObs_self xs
  have hfst : (pairedObs xs xs).map Prod.fst = l := by
    rw [hself, List.map_map, show (Prod.fst ∘ fun a : ℚ => (a, a)) = id from rfl,
      List.map_id, hl]
  have hsnd : (pairedObs xs xs).map Prod.snd = l := by
    rw [hself, List.map_map, show (Prod.snd ∘ fun a : ℚ => (a, a)) = id from rfl,
      List.map_id, hl]
  have hcov : covSum (pairedObs xs xs) = ssSum l := by
    rw [covSum, ssSum, hfst, hsnd, hself, List.map_map]
    congr 1
    refine List.map_congr_left ?_
    intro a _
    simp [sq]
  have hpos : 0 < ssSum l := lt_of_le_of_ne (ssSum_nonneg l) (Ne.symm h)
  constructor
  · rw [corrEntry]
    simp only [← hl, hfst, hsnd, hcov]
    rw [if_neg (by positivity), sq]
  · rw [corrValue]
    have hcast : ((ssSum l ^ 2 : ℚ) : ℝ) = ((ssSum l : ℚ) : ℝ) ^ 2 := by push_cast; ring
    simp only [hcast, Real.sqrt_sq_eq_abs]
    rw [abs_of_pos (by exact_mod_cast hpos)]
    exact div_self (by exact_mod_cast ne_of_gt hpos)

/-- The square-free threshold tests of `strongCorrelations` coincide with
the float tests `abs(r) > 0.7`, `abs(r) > 0.8` and `r > 0` of the source,
where `r = num/√denSq` is the Pearson coefficient. -/
lemma strong_test_iff (num d : ℚ) (hd : 0 < d) :
    ((num ^ 2 > 49/100 * d) ↔ |corrValue (num, d)| > 7/10) ∧
    ((num ^ 2 > 64/100 * d) ↔ |corrValue (num, d)| > 8/10) ∧
    ((num > 0) ↔ corrValue (num, d) > 0) := by
  have hsd : (0:ℝ) < Real.sqrt (d : ℚ) := Real.sqrt_pos.mpr (by exact_mod_cast hd)
  have habs : |corrValue (num, d)| = |(num : ℝ)| / Real.sqrt ((d : ℚ) : ℝ) := by
    simp only [corrValue]
    rw [abs_div, abs_of_nonneg (Real.sqrt_nonneg _)]
  have key : ∀ c : ℚ, 0 ≤ c →
      ((num ^ 2 > c ^ 2 * d) ↔ |corrValue (num, d)| > (c : ℝ)) := by
    intro c hc
    rw [habs]
    simp only [gt_iff_lt]
    rw [lt_div_iff hsd]
    have hmul : (c : ℝ) * Real.sqrt (d : ℚ) = Real.sqrt ((c ^ 2 * d : ℚ) : ℝ) := by
      push_cast
      rw [Real.sqrt_mul (by positivity) ((d:ℚ) : ℝ),
        Real.sqrt_sq (by exact_mod_cast hc)]
    rw [hmul, Real.sqrt_lt (by positivity) (abs_nonneg _), sq_abs]
    constructor
    · intro hlt; exact_mod_cast hlt
    · intro hlt; exact_mod_cast hlt
  refine ⟨?_, ?_, ?_⟩
  · have h := key (7/10) (by norm_num)
    rw [show ((7:ℚ)/10) ^ 2 = 49/100 by norm_num] at h
    simpa using h
  · have h := key (8/10) (by norm_num)
    rw [show ((8:ℚ)/10) ^ 2 = 64/100 by norm_num] at h
    simpa using h
  · simp only [corrValue, gt_iff_lt]
    rw [lt_div_iff hsd, zero_mul]
    constructor
    · intro hlt; exact_mod_cast hlt
    · intro hlt; exact_mod_cast hlt

/-- `strongPairEntry` on a NaN matrix entry emits nothing. -/
lemma strongPairEntry_none {xs ys : List (Option ℚ)} (m1 m2 : String)
    (h : corrEntry xs ys = none) : strongPairEntry m1 xs m2 ys = none := by
  rw [strongPairEntry, h]

/-- `strongPairEntry` on a produced matrix entry applies the strict
`0.49`-threshold test. -/
lemma strongPairEntry_some {xs ys : List (Option ℚ)} (m1 m2 : String)
    {e : ℚ × ℚ} (h : corrEntry xs ys = some e) :
    strongPairEntry m1 xs m2 ys =
      if e.1 ^ 2 > 49/100 * e.2 then
        some { metric1 := m1, metric2 := m2, correlationRep := e,
               strength := if e.1 ^ 2 > 64/100 * e.2 then "strong" else "moderate",
               direction := if e.1 > 0 then "positive" else "negative" }
      else none := by
  rw [strongPairEntry, h]

/-- **C7 counterexample.** Not every diagonal entry of the correlation
matrix equals 1.0: for a constant column (here two rows with value 1) the
centred sum of squares is 0 and pandas produces `NaN` (modelled `none`),
so the diagonal entry is undefined rather than 1.0. -/
theorem constant_column_diagonal_not_one :
    corrEntry [some (1:ℚ), some 1] [some (1:ℚ), some 1] = none ∧
    ¬ ∃ e, corrEntry [some (1:ℚ), some 1] [some (1:ℚ), some 1] = some e ∧
      corrValue e = 1 := by
  have h : corrEntry [some (1:ℚ), some 1] [some (1:ℚ), some 1] = none := by
    with_unfolding_all rfl
  refine ⟨h, ?_⟩
  rintro ⟨e, he, -⟩
  rw [h] at he
  exact Option.noConfusion he

/-- **C7 (amended).** The correlation matrix is symmetric
(`corr(a,b) = corr(b,a)` for every pair of columns), its diagonal entries
equal 1.0 for every column with nonzero centred sum of squares (a constant
column instead yields an undefined/NaN entry), and exactly the pairs
`i < j` whose Pearson coefficient satisfies `|r| > 0.7` are extracted as
strong correlations, sub-classified `"strong"` iff `|r| > 0.8` (else
`"moderate"`), with direction `"positive"` iff `r > 0` (else
`"negative"`). -/
theorem correlation_matrix_properties :
    (∀ xs ys : List (Option ℚ), corrEntry xs ys = corrEntry ys xs) ∧
    (∀ xs : List (Option ℚ), ssSum (xs.filterMap id) ≠ 0 →
      ∃ e, corrEntry xs xs = some e ∧ corrValue e = 1) ∧
    (∀ (cols : List (String × List (Option ℚ))) (sc : StrongCorrelation),
      sc ∈ strongCorrelations cols →
      ∃ (i j : ℕ) (xs ys : List (Option ℚ)), i < j ∧
        cols.get? i = some (sc.metric1, xs) ∧
        cols.get? j = some (sc.metric2, ys) ∧
        corrEntry xs ys = some sc.correlationRep ∧
        |corrValue sc.correlationRep| > 7/10 ∧
        (sc.strength = "strong" ↔ |corrValue sc.correlationRep| > 8/10) ∧
        (sc.strength = "moderate" ↔ ¬ |corrValue sc.correlationRep| > 8/10) ∧
        (sc.direction = "positive" ↔ corrValue sc.correlationRep > 0) ∧
        (sc.direction = "negative" ↔ ¬ corrValue sc.correlationRep > 0)) ∧
    (∀ (cols : List (String × List (Option ℚ))) (i j : ℕ) (m1 m2 : String)
       (xs ys : List (Option ℚ)) (e : ℚ × ℚ), i < j →
      cols.get? i = some (m1, xs) → cols.get? j = some (m2, ys) →
      corrEntry xs ys = some e → |corrValue e| > 7/10 →
      ∃ sc ∈ strongCorrelations cols,
        sc.metric1 = m1 ∧ sc.metric2 = m2 ∧ sc.correlationRep = e) := by
  refine ⟨corrEntry_symm, ?_, ?_, ?_⟩
  · intro xs h
    exact ⟨_, (corrEntry_diag xs h).1, (corrEntry_diag xs h).2⟩
  · intro cols sc hsc
    rw [strongCorrelations] at hsc
    obtain ⟨i, _, hsc2⟩ := List.mem_flatMap.mp hsc
    obtain ⟨j, _, hg⟩ := List.mem_filterMap.mp hsc2
    split_ifs at hg with hij
    cases hgi : cols.get? i with
    | none => rw [hgi] at hg; simp at hg
    | some c1 =>
      cases hgj : cols.get? j with
      | none => rw [hgi, hgj] at hg; obtain ⟨m1, xs⟩ := c1; simp at hg
      | some c2 =>
        obtain ⟨m1, xs⟩ := c1
        obtain ⟨m2, ys⟩ := c2
        rw [hgi, hgj] at hg
        have hg1 : strongPairEntry m1 xs m2 ys = some sc := hg
        cases hce : corrEntry xs ys with
        | none =>
          rw [strongPairEntry_none m1 m2 hce] at hg1
          exact absurd hg1 (by simp)
        | some e =>
          rw [strongPairEntry_some m1 m2 hce] at hg1
          by_cases h49 : e.1 ^ 2 > 49/100 * e.2
          case neg =>
            rw [if_neg h49] at hg1
            exact absurd hg1 (by simp)
          rw [if_pos h49] at hg1
          injection hg1 with hg2
          have hm1 : sc.metric1 = m1 := by rw [← hg2]
          have hm2 : sc.metric2 = m2 := by rw [← hg2]
          have hrep : sc.correlationRep = e := by rw [← hg2]
          have hstr : sc.strength =
              (if e.1 ^ 2 > 64/100 * e.2 then "strong" else "moderate") := by
            rw [← hg2]
          have hdir : sc.direction =
              (if e.1 > 0 then "positive" else "negative") := by
            rw [← hg2]
          have hd : 0 < e.2 := corrEntry_denSq_pos hce
          have htests := strong_test_iff e.1 e.2 hd
          refine ⟨i, j, xs, ys, hij, ?_, ?_, ?_, ?_, ?_, ?_, ?_, ?_⟩
          · rw [hm1]; exact hgi
          · rw [hm2]; exact hgj
          · rw [hrep]; exact hce
          · rw [hrep]; exact htests.1.mp h49
          · rw [hstr, hrep]
            by_cases h64 : e.1 ^ 2 > 64/100 * e.2
            · rw [if_pos h64]
              exact iff_of_true rfl (htests.2.1.mp h64)
            · rw [if_neg h64]
              exact iff_of_false (by decide) (fun hr => h64 (htests.2.1.mpr hr))
          · rw [hstr, hrep]
            by_cases h64 : e.1 ^ 2 > 64/100 * e.2
            · rw [if_pos h64]
              exact iff_of_false (by decide) (fun hr => hr (htests.2.1.mp h64))
            · rw [if_neg h64]
              exact iff_of_true rfl (fun hr => h64 (htests.2.1.mpr hr))
          · rw [hdir, hrep]
            by_cases hpos : e.1 > 0
            · rw [if_pos hpos]
              exact iff_of_true rfl (htests.2.2.mp hpos)
            · rw [if_neg hpos]
              exact iff_of_false (by decide) (fun hr => hpos (htests.2.2.mpr hr))
          · rw [hdir, hrep]
            by_cases hpos : e.1 > 0
            · rw [if_pos hpos]
              exact iff_of_false (by decide) (fun hr => hr (htests.2.2.mp hpos))
            · rw [if_neg hpos]
              exact iff_of_true rfl (fun hr => hpos (htests.2.2.mpr hr))
  · intro cols i j m1 m2 xs ys e hij hgi hgj hce hr
    have hd : 0 < e.2 := corrEntry_denSq_pos hce
    have h49 : e.1 ^ 2 > 49/100 * e.2 := (strong_test_iff e.1 e.2 hd).1.mpr hr
    refine ⟨{ metric1 := m1, metric2 := m2, correlationRep := e,
              strength := if e.1 ^ 2 > 64/100 * e.2 then "strong" else "moderate",
              direction := if e.1 > 0 then "positive" else "negative" },
      ?_, rfl, rfl, rfl⟩
    rw [strongCorrelations]
    have hilen : i < cols.length := by
      rcases List.get?_eq_some.mp hgi with ⟨h, _⟩
      exact h
    have hjlen : j < cols.length := by
      rcases List.get?_eq_some.mp hgj with ⟨h, _⟩
      exact h
    refine List.mem_flatMap.mpr ⟨i, List.mem_range.mpr hilen,
      List.mem_filterMap.mpr ⟨j, List.mem_range.mpr hjlen, ?_⟩⟩
    rw [if_pos hij, hgi, hgj]
    show strongPairEntry m1 xs m2 ys = _
    rw [strongPairEntry_some m1 m2 hce, if_pos h49]

/-- Witness for `correlation_matrix_properties`: the diagonal entry of a
non-constant column denotes 1, and the perfectly correlated pair of
columns `[1,2,3]`, `[2,4,6]` is extracted. -/
theorem correlation_matrix_properties_witness :
    (∃ e, corrEntry [some (1:ℚ), some 2, some 3] [some (1:ℚ), some 2, some 3] = some e ∧
      corrValue e = 1) ∧
    (∃ sc ∈ strongCorrelations
        [("a", [some (1:ℚ), some 2, some 3]), ("b", [some (2:ℚ), some 4, some 6])],
      sc.metric1 = "a" ∧ sc.metric2 = "b" ∧ sc.correlationRep = (4, 16)) := by
  constructor
  · exact correlation_matrix_properties.2.1 [some (1:ℚ), some 2, some 3]
      (by with_unfolding_all decide)
  · refine correlation_matrix_properties.2.2.2
      [("a", [some (1:ℚ), some 2, some 3]), ("b", [some (2:ℚ), some 4, some 6])]
      0 1 "a" "b" [some (1:ℚ), some 2, some 3] [some (2:ℚ), some 4, some 6] (4, 16)
      (by decide) rfl rfl (by with_unfolding_all rfl) ?_
    have h := (strong_test_iff 4 16 (by norm_num)).1
    exact h.mp (by norm_num)

end Trackify
